import Mathlib

/-!
Verification of the dingtalk-agent-client message pipeline, connection
supervisor and health monitor, as a shallow embedding of the Python source.

Embedded source files:
* `src/app/dingtalk/callback_handler.py` (`MessageCallbackHandler`)
* `src/app/api/dingtalk/stream_client.py` (`DingTalkStreamManager`,
  `ConnectionStats`)

Python values are modelled by `PyVal`; the standard-library `json.loads`
is modelled by an executable fuel-based JSON parser (`loads`); exceptions
are modelled by the `Except String` monad, with the error string standing
in for the Python exception description (abbreviated, not verbatim).
Timestamps are natural numbers.
-/

namespace DingTalk

/-- Model of the Python values flowing through the handler: everything
`json.loads` can produce (`None`, `bool`, `int`, `float` — finite values
as exact decimal scientific pairs, plus the `NaN` and `±Infinity`
specials the decoder accepts by default —, `str`, `list`, `dict` with
string keys), plus objects that carry `.text`/`.type` attributes (the
`TextContent` shape tested by `hasattr` in `_create_text_response` and
`_make_json_serializable`). -/
inductive PyVal where
  | none : PyVal
  | bool (b : Bool) : PyVal
  | int (n : Int) : PyVal
  | float (m : Int) (e : Int) : PyVal
  | nan : PyVal
  | inf (neg : Bool) : PyVal
  | str (s : String) : PyVal
  | list (xs : List PyVal) : PyVal
  | dict (fs : List (String × PyVal)) : PyVal
  | textContent (text : String) : PyVal

/-- Python truthiness (`bool(v)`) on the modelled values; an object with
attributes and no `__len__`/`__bool__` is always truthy, and so are the
non-zero floats `nan` and `±inf`. -/
def PyVal.truthy : PyVal → Bool
  | .none => false
  | .bool b => b
  | .int n => n != 0
  | .float m _ => m != 0
  | .nan => true
  | .inf _ => true
  | .str s => s != ""
  | .list xs => !xs.isEmpty
  | .dict fs => !fs.isEmpty
  | .textContent _ => true

/-- First-match association lookup; Python dicts cannot hold duplicate
keys, and the dicts built by the embedding keep keys unique. -/
def assocLookup (fs : List (String × PyVal)) (k : String) : Option PyVal :=
  match fs with
  | [] => Option.none
  | (k2, v) :: rest => if k2 == k then some v else assocLookup rest k

/-- Python `dict[k] = v` semantics used while decoding a JSON object:
the key keeps its first-occurrence position, the last value wins. -/
def dictInsert (fs : List (String × PyVal)) (k : String) (v : PyVal) :
    List (String × PyVal) :=
  if fs.any (fun p => p.1 == k) then
    fs.map (fun p => if p.1 == k then (k, v) else p)
  else fs ++ [(k, v)]

/-- The characters Python `str.isspace()` — and hence `str.strip()` —
recognizes: 0x09-0x0D, the information separators 0x1C-0x1F, the space
0x20, next line 0x85, no-break space 0xA0, Ogham space mark 0x1680, the
Unicode space separators 0x2000-0x200A, the line and paragraph
separators 0x2028/0x2029, narrow no-break space 0x202F, medium
mathematical space 0x205F and ideographic space 0x3000. -/
def isPySpace (c : Char) : Bool :=
  (9 ≤ c.toNat && c.toNat ≤ 13) || (28 ≤ c.toNat && c.toNat ≤ 31) ||
  c.toNat == 32 || c.toNat == 133 || c.toNat == 160 ||
  c.toNat == 0x1680 || (0x2000 ≤ c.toNat && c.toNat ≤ 0x200a) ||
  c.toNat == 0x2028 || c.toNat == 0x2029 || c.toNat == 0x202f ||
  c.toNat == 0x205f || c.toNat == 0x3000

/-- Model of Python `str.strip()` with no argument: drop leading and
trailing `str.isspace()` characters. -/
def pyStripStr (s : String) : String :=
  String.mk (((s.data.dropWhile isPySpace).reverse.dropWhile isPySpace).reverse)

/-- JSON insignificant whitespace. -/
def isJsonWs (c : Char) : Bool :=
  c == ' ' || c == '\t' || c == '\n' || c == '\r'

/-- Drop insignificant JSON whitespace. -/
def skipWs (cs : List Char) : List Char := cs.dropWhile isJsonWs

/-- Value of a hexadecimal digit, if any. -/
def hexVal (c : Char) : Option Nat :=
  if 48 ≤ c.toNat ∧ c.toNat ≤ 57 then some (c.toNat - 48)
  else if 97 ≤ c.toNat ∧ c.toNat ≤ 102 then some (c.toNat - 87)
  else if 65 ≤ c.toNat ∧ c.toNat ≤ 70 then some (c.toNat - 55)
  else Option.none

/-- Decimal digit test. -/
def isDigitCh (c : Char) : Bool := 48 ≤ c.toNat && c.toNat ≤ 57

/-- Numeric value of a digit list. -/
def digitsVal (ds : List Char) : Nat :=
  ds.foldl (fun a c => a * 10 + (c.toNat - 48)) 0

/-- Decode the remainder of a JSON string literal (after the opening
quote), handling the JSON escape sequences and rejecting raw control
characters, as Python `json.loads` does in strict mode. -/
def parseStrChars (acc : List Char) : List Char → Option (String × List Char)
  | [] => Option.none
  | c :: rest =>
    if c == '"' then some (String.mk acc.reverse, rest)
    else if c == '\\' then
      match rest with
      | [] => Option.none
      | e :: rest2 =>
        if e == '"' then parseStrChars ('"' :: acc) rest2
        else if e == '\\' then parseStrChars ('\\' :: acc) rest2
        else if e == '/' then parseStrChars ('/' :: acc) rest2
        else if e == 'b' then parseStrChars (Char.ofNat 8 :: acc) rest2
        else if e == 'f' then parseStrChars (Char.ofNat 12 :: acc) rest2
        else if e == 'n' then parseStrChars ('\n' :: acc) rest2
        else if e == 'r' then parseStrChars (Char.ofNat 13 :: acc) rest2
        else if e == 't' then parseStrChars ('\t' :: acc) rest2
        else if e == 'u' then
          match rest2 with
          | a :: b :: c2 :: d :: rest3 =>
            match hexVal a, hexVal b, hexVal c2, hexVal d with
            | some x, some y, some z, some w =>
              parseStrChars (Char.ofNat (((x * 16 + y) * 16 + z) * 16 + w) :: acc) rest3
            | _, _, _, _ => Option.none
          | _ => Option.none
        else Option.none
    else if c.toNat < 32 then Option.none
    else parseStrChars (c :: acc) rest

/-- Decode an optional JSON exponent part; returns the exponent (0 when
absent) and the remaining input, or fails on a malformed exponent. -/
def parseExpPart (cs : List Char) : Option (Int × List Char) :=
  match cs with
  | 'e' :: t => parseExpDigits t
  | 'E' :: t => parseExpDigits t
  | _ => some (0, cs)
where
  parseExpDigits (t : List Char) : Option (Int × List Char) :=
    let (neg, t1) := match t with
      | '-' :: u => (true, u)
      | '+' :: u => (false, u)
      | _ => (false, t)
    let ds := t1.takeWhile isDigitCh
    if ds.isEmpty then Option.none
    else
      let v : Int := Int.ofNat (digitsVal ds)
      some (if neg then -v else v, t1.dropWhile isDigitCh)

/-- Decode a JSON number (the grammar Python `json.loads` accepts:
optional minus, no leading zeros, optional fraction, optional exponent).
A number without fraction or exponent becomes `PyVal.int`, any other
becomes `PyVal.float` in decimal scientific form. -/
def parseNum (cs : List Char) : Option (PyVal × List Char) :=
  let (neg, cs1) := match cs with
    | '-' :: t => (true, t)
    | _ => (false, cs)
  let intDigits := cs1.takeWhile isDigitCh
  let cs2 := cs1.dropWhile isDigitCh
  if intDigits.isEmpty then Option.none
  else if intDigits.length > 1 && intDigits.headD '0' == '0' then Option.none
  else
    match cs2 with
    | '.' :: t =>
      let fd := t.takeWhile isDigitCh
      if fd.isEmpty then Option.none
      else
        match parseExpPart (t.dropWhile isDigitCh) with
        | some (ex, cs3) =>
          let mNat := digitsVal (intDigits ++ fd)
          let m : Int := if neg then -(Int.ofNat mNat) else Int.ofNat mNat
          some (PyVal.float m (ex - Int.ofNat fd.length), cs3)
        | Option.none => Option.none
    | _ =>
      match cs2 with
      | 'e' :: _ =>
        match parseExpPart cs2 with
        | some (ex, cs3) =>
          let m : Int := if neg then -(Int.ofNat (digitsVal intDigits))
                         else Int.ofNat (digitsVal intDigits)
          some (PyVal.float m ex, cs3)
        | Option.none => Option.none
      | 'E' :: _ =>
        match parseExpPart cs2 with
        | some (ex, cs3) =>
          let m : Int := if neg then -(Int.ofNat (digitsVal intDigits))
                         else Int.ofNat (digitsVal intDigits)
          some (PyVal.float m ex, cs3)
        | Option.none => Option.none
      | _ =>
        let m : Int := if neg then -(Int.ofNat (digitsVal intDigits))
                       else Int.ofNat (digitsVal intDigits)
        some (PyVal.int m, cs2)

mutual

/-- Fuel-based decoder for one JSON value; the fuel bounds the length of
any chain of recursive calls and is chosen generously by `loads`. -/
def parseVal : Nat → List Char → Option (PyVal × List Char)
  | 0, _ => Option.none
  | Nat.succ fuel, cs =>
    match skipWs cs with
    | 'n' :: 'u' :: 'l' :: 'l' :: rest => some (PyVal.none, rest)
    | 't' :: 'r' :: 'u' :: 'e' :: rest => some (PyVal.bool true, rest)
    | 'f' :: 'a' :: 'l' :: 's' :: 'e' :: rest => some (PyVal.bool false, rest)
    | 'N' :: 'a' :: 'N' :: rest => some (PyVal.nan, rest)
    | 'I' :: 'n' :: 'f' :: 'i' :: 'n' :: 'i' :: 't' :: 'y' :: rest =>
      some (PyVal.inf false, rest)
    | '-' :: 'I' :: 'n' :: 'f' :: 'i' :: 'n' :: 'i' :: 't' :: 'y' :: rest =>
      some (PyVal.inf true, rest)
    | '"' :: rest =>
      match parseStrChars [] rest with
      | some (s, rest2) => some (PyVal.str s, rest2)
      | Option.none => Option.none
    | '[' :: rest => parseArr fuel (skipWs rest)
    | '{' :: rest => parseObj fuel (skipWs rest)
    | cs2 => parseNum cs2

/-- Decode the inside of a JSON array after `[` (whitespace skipped). -/
def parseArr : Nat → List Char → Option (PyVal × List Char)
  | 0, _ => Option.none
  | Nat.succ fuel, cs =>
    match cs with
    | ']' :: rest => some (PyVal.list [], rest)
    | _ => parseArrElems fuel cs []

/-- Decode the comma-separated elements of a nonempty JSON array. -/
def parseArrElems : Nat → List Char → List PyVal → Option (PyVal × List Char)
  | 0, _, _ => Option.none
  | Nat.succ fuel, cs, acc =>
    match parseVal fuel cs with
    | Option.none => Option.none
    | some (v, rest) =>
      match skipWs rest with
      | ',' :: rest2 => parseArrElems fuel rest2 (v :: acc)
      | ']' :: rest2 => some (PyVal.list (v :: acc).reverse, rest2)
      | _ => Option.none

/-- Decode the inside of a JSON object after the opening brace
(whitespace skipped). -/
def parseObj : Nat → List Char → Option (PyVal × List Char)
  | 0, _ => Option.none
  | Nat.succ fuel, cs =>
    match cs with
    | '}' :: rest => some (PyVal.dict [], rest)
    | _ => parseObjMembers fuel cs []

/-- Decode the comma-separated members of a nonempty JSON object,
with Python dict assignment semantics for duplicate keys. -/
def parseObjMembers : Nat → List Char → List (String × PyVal) →
    Option (PyVal × List Char)
  | 0, _, _ => Option.none
  | Nat.succ fuel, cs, acc =>
    match skipWs cs with
    | '"' :: rest =>
      match parseStrChars [] rest with
      | Option.none => Option.none
      | some (k, rest2) =>
        match skipWs rest2 with
        | ':' :: rest3 =>
          match parseVal fuel (skipWs rest3) with
          | Option.none => Option.none
          | some (v, rest4) =>
            match skipWs rest4 with
            | ',' :: rest5 => parseObjMembers fuel rest5 (dictInsert acc k v)
            | '}' :: rest5 => some (PyVal.dict (dictInsert acc k v), rest5)
            | _ => Option.none
        | _ => Option.none
    | _ => Option.none

end

/-- Model of Python `json.loads` on a string: decode one JSON value —
including the non-standard `NaN`, `Infinity` and `-Infinity` literals
the decoder accepts by default — and require only whitespace to remain.
The fuel `3 * length + 16` exceeds the length of any chain of recursive
calls the input can produce. -/
def loads (s : String) : Option PyVal :=
  match parseVal (3 * s.length + 16) s.data with
  | some (v, rest) => if (skipWs rest).isEmpty then some v else Option.none
  | Option.none => Option.none

/-- Computation that may raise a Python exception; the string is an
abbreviated stand-in for the exception description `str(e)`. -/
abbrev PyM (α : Type) : Type := Except String α

/-- Python `dict.get(k, default)` on a modelled value; raises
(`AttributeError`) when the receiver is not a dict, as in CPython. -/
def pyGet (v : PyVal) (k : String) (dflt : PyVal) : PyM PyVal :=
  match v with
  | .dict fs => pure ((assocLookup fs k).getD dflt)
  | _ => throw "AttributeError: get"

/-- Python `dict[k]` on a metadata dict; raises `KeyError` when the key
is absent. -/
def dictIndex (fs : List (String × PyVal)) (k : String) : PyM PyVal :=
  match assocLookup fs k with
  | some v => pure v
  | Option.none => throw ("KeyError: " ++ k)

/-- Python `json.loads` applied to an arbitrary value: only strings are
decoded; a non-string argument raises `TypeError`, an undecodable string
raises `JSONDecodeError`. -/
def pyLoads : PyVal → PyM PyVal
  | .str s =>
    match loads s with
    | some v => pure v
    | Option.none => throw "JSONDecodeError"
  | _ => throw "TypeError: loads expects str"

/-- Python `v.strip()`: only strings have the method; any other receiver
raises `AttributeError`. -/
def pyStrip : PyVal → PyM String
  | .str s => pure (pyStripStr s)
  | _ => throw "AttributeError: strip"

/-- The inner `try` of `_parse_message_content` that recovers
`requestId` from the (possibly double-encoded) `scenarioContext` value;
any failure is logged and yields `None`, never failing the outer parse.
The recovered `orgId` is also computed there but never reaches the
returned metadata, so only the request id is kept.
(`callback_handler.py` lines 263-273.) -/
def scenarioRequestId (sc : PyVal) : PyVal :=
  match (do
    let obj ← match sc with
      | .str s => pyLoads (.str s)
      | v => pure v
    let _ ← pyGet obj "orgId" .none
    pyGet obj "requestId" .none : PyM PyVal) with
  | .ok rid => rid
  | .error _ => PyVal.none

/-- Line 251-252 of `_parse_message_content`: a string body is first
decoded with `json.loads`, anything else is used as is. -/
def decodeBody : PyVal → PyM PyVal
  | .str s => pyLoads (.str s)
  | b => pure b

/-- Lines 260-273 of `_parse_message_content`: `org_id` from `orgId` or
`org_id` (Python `or`, i.e. truthiness), and when falsy, `request_id`
recovered from a truthy `scenarioContext` through the inner `try`. -/
def computeRequestId (body : PyVal) : PyM PyVal := do
  let orgA ← pyGet body "orgId" .none
  let orgB ← pyGet body "org_id" .none
  let org_id := if orgA.truthy then orgA else orgB
  if org_id.truthy then pure PyVal.none
  else do
    let sc ← pyGet body "scenarioContext" .none
    if sc.truthy then pure (scenarioRequestId sc) else pure PyVal.none

/-- Lines 276-286 of `_parse_message_content`: the metadata dict literal
with its defaulting rules, in source order. -/
def buildMetadata (body msg_type request_id : PyVal) :
    PyM (List (String × PyVal)) := do
  let sender_id ← pyGet body "sender_id" (.str "")
  let sender_nick ← pyGet body "sender_nick" (.str "Unknown User")
  let conversation_id ← pyGet body "conversation_id" (.str "")
  let conversation_type ← pyGet body "conversation_type" (.str "1")
  let group_name ← pyGet body "conversation_title" (.str "")
  let conversation_token ← pyGet body "conversationToken" (.str "")
  let sender_union_id ← pyGet body "sender_union_id" (.str "")
  pure
    [("msg_type", msg_type),
     ("sender_id", sender_id),
     ("sender_nick", sender_nick),
     ("conversation_id", conversation_id),
     ("conversation_type", conversation_type),
     ("group_name", group_name),
     ("conversation_token", conversation_token),
     ("sender_union_id", sender_union_id),
     ("request_id", request_id)]

/-- The body of `_parse_message_content`'s `try` block
(`callback_handler.py` lines 249-288): decode a string body, decode the
`msgType` field, trim the `input` field, recover `request_id`, and
assemble the metadata dict with its defaulting rules. -/
def parseBodyExc (body0 : PyVal) : PyM (String × List (String × PyVal)) := do
  let body ← decodeBody body0
  let msg_type ← pyGet (← pyLoads (← pyGet body "msgType" .none)) "msgType" .none
  let text_content ← pyStrip (← pyGet body "input" (.str ""))
  let request_id ← computeRequestId body
  let md ← buildMetadata body msg_type request_id
  pure (text_content, md)

/-- `MessageCallbackHandler._parse_message_content`: the `try` body with
its blanket `except` returning empty text content and an empty metadata
dict on any failure. -/
def parseMessageContent (body : PyVal) : String × List (String × PyVal) :=
  match parseBodyExc body with
  | .ok r => r
  | .error _ => ("", [])

/-- `AckMessage.STATUS_OK` of the dingtalk_stream SDK.  Modelled from
the spec: the SDK itself is an external collaborator; the spec gives the
acknowledgement an HTTP-style OK code alongside the 200 status line. -/
def STATUS_OK : Nat := 200

/-- `AckMessage.STATUS_SYSTEM_EXCEPTION` of the dingtalk_stream SDK.
Modelled from the spec: the SDK is external; the spec pairs the
System-Exception code with the 500 status line. -/
def STATUS_SYSTEM_EXCEPTION : Nat := 500

/-- `Headers.CONTENT_TYPE_APPLICATION_JSON` of the dingtalk_stream SDK.
Modelled from the spec: the acknowledgement declares
`Content-Type: application/json`. -/
def CONTENT_TYPE_APPLICATION_JSON : String := "application/json"

/-- The observable content of a `GraphResponse` after `to_dict()`:
status-line code and reason phrase, headers, body. -/
structure GraphResponseData where
  code : Nat
  reason_phrase : String
  headers : List (String × String)
  body : PyVal

/-- `_create_base_response`: status line `200 OK` and a JSON
content-type header. -/
def createBaseResponse : GraphResponseData :=
  { code := 200, reason_phrase := "OK",
    headers := [("Content-Type", "application/json")], body := .none }

mutual

/-- `_make_json_serializable` (total on the modelled values). -/
def makeJsonSerializable : PyVal → PyVal
  | .none => .none
  | .bool b => .bool b
  | .int n => .int n
  | .float m e => .float m e
  | .nan => .nan
  | .inf b => .inf b
  | .str s => .str s
  | .list xs => .list (serializeList xs)
  | .dict fs => .dict (serializeFields fs)
  | .textContent t => .str t

/-- `_make_json_serializable` mapped over a list. -/
def serializeList : List PyVal → List PyVal
  | [] => []
  | x :: xs => makeJsonSerializable x :: serializeList xs

/-- `_make_json_serializable` mapped over dict values. -/
def serializeFields : List (String × PyVal) → List (String × PyVal)
  | [] => []
  | (k, v) :: fs => (k, makeJsonSerializable v) :: serializeFields fs

end

/-- `_create_tool_response`: rebuild the four-field tool dict; a missing
key raises `KeyError` (caught by `process`'s inner handler). -/
def createToolResponse (fs : List (String × PyVal)) : PyM PyVal := do
  let tn ← dictIndex fs "tool_name"
  let ta ← dictIndex fs "tool_args"
  let tout ← dictIndex fs "tool_output"
  let sm ← dictIndex fs "summary"
  pure (.dict [("tool_name", tn), ("tool_args", ta),
               ("tool_output", makeJsonSerializable tout), ("text", sm)])

/-- `_create_text_response`: a `.text`/`.type` object yields
`\x7b"text": ...\x7d`, anything else `\x7b"content": ...\x7d`. -/
def createTextResponse : PyVal → PyVal
  | .textContent t => .dict [("text", .str t)]
  | r => .dict [("content", makeJsonSerializable r)]

/-- `_create_empty_response`: status OK with the fixed
`No valid text content` body. -/
def createEmptyResponse : Nat × GraphResponseData :=
  (STATUS_OK,
   { createBaseResponse with
     body := .dict [("status", .str "empty_message"),
                    ("text", .str "No valid text content")] })

/-- `_create_error_response`: System-Exception code, status line
`500 Internal Server Error`, body `\x7b"error": message\x7d`. -/
def createErrorResponse (msg : String) : Nat × GraphResponseData :=
  (STATUS_SYSTEM_EXCEPTION,
   { code := 500, reason_phrase := "Internal Server Error",
     headers := [("Content-Type", "application/json")],
     body := .dict [("error", .str msg)] })

/-- `_create_response`: falsy results get the empty response; a dict
containing `tool_name` gets the tool shape (possibly raising
`KeyError`); everything else the text/content shape; all with
`STATUS_OK`. -/
def createResponse (result : PyVal) : PyM (Nat × GraphResponseData) :=
  if !result.truthy then pure createEmptyResponse
  else do
    let body ←
      match result with
      | .dict fs =>
        if fs.any (fun p => p.1 == "tool_name") then createToolResponse fs
        else pure (createTextResponse (.dict fs))
      | r => pure (createTextResponse r)
    pure (STATUS_OK, { createBaseResponse with body := body })

/-- The `MessageCallbackHandler.stats` dict. -/
structure HandlerStats where
  messages_received : Nat := 0
  messages_processed : Nat := 0
  errors : Nat := 0
  timeouts : Nat := 0
  last_message_time : Nat := 0
  deriving DecidableEq

/-- What the external collaborator `agent_manager.process_message` does
on the single in-flight request: return a value, raise a non-timeout
exception (with its description and type name), or exceed the deadline
of the surrounding `asyncio.wait_for`. -/
inductive AgentOutcome where
  | success (finalOutput : PyVal)
  | raises (desc : String) (errType : String)
  | timeout

/-- `_process_with_agent_manager` (`callback_handler.py` lines 123-163):
a timeout is re-raised to the caller (`Except.error`), any other
exception from the agent is caught and returned as a normal
`\x7b"status": "error", ...\x7d` dict, a success returns
`result.final_output`. -/
def processWithAgentManager : AgentOutcome → Except Unit PyVal
  | .success r => .ok r
  | .timeout => .error ()
  | .raises desc ty =>
    .ok (.dict [("status", .str "error"), ("message", .str desc),
                ("error_type", .str ty)])

/-- The `MessageContext` dataclass as constructed by `process`
(lines 74-84); field values come from the metadata dict. -/
structure MessageContext where
  content : String
  user_name : PyVal
  user_id : PyVal
  sender_union_id : PyVal
  is_group_chat : Bool
  group_name : PyVal
  conversation_id : PyVal
  timestamp : Nat
  conversation_token : PyVal

/-- Python `v == s` against a string literal: true only for the equal
string value. -/
def isStrEq (v : PyVal) (s : String) : Bool :=
  match v with
  | .str t => t == s
  | _ => false

/-- The `MessageContext(...)` construction in `process` (lines 74-84);
a missing metadata key would raise `KeyError` (caught by the outer
`except`).  `is_group_chat` is `metadata["conversation_type"] != "1"`. -/
def buildContext (text : String) (md : List (String × PyVal)) (now : Nat) :
    PyM MessageContext := do
  let nick ← dictIndex md "sender_nick"
  let sid ← dictIndex md "sender_id"
  let suid ← dictIndex md "sender_union_id"
  let ct ← dictIndex md "conversation_type"
  let gn ← dictIndex md "group_name"
  let cid ← dictIndex md "conversation_id"
  let tok ← dictIndex md "conversation_token"
  pure { content := text, user_name := nick, user_id := sid,
         sender_union_id := suid, is_group_chat := !(isStrEq ct "1"),
         group_name := gn, conversation_id := cid, timestamp := now,
         conversation_token := tok }

/-- Header of the inbound callback frame (the part `raw_process`
echoes). -/
structure CallbackHeaders where
  message_id : String
  deriving DecidableEq

/-- The inbound `CallbackMessage` as seen by `process`: its headers and
the outcome of `GraphRequest.from_dict(callback.data)` — either the
request body, or the description of the exception the (external SDK)
decoder raised. -/
structure CallbackMessage where
  headers : CallbackHeaders
  graphRequest : Except String PyVal

/-- Everything observable about one `process` call: the updated stats
dict, the returned `(code, response_dict)` pair, and whether the
single-flight lock was acquired and released (the `async with` block
releases it on every exit path, which the embedding records
explicitly). -/
structure ProcessResult where
  stats : HandlerStats
  code : Nat
  response : GraphResponseData
  lockAcquired : Bool
  lockReleased : Bool

/-- `MessageCallbackHandler.process` (lines 51-121), sequentially: parse
the callback, short-circuit empty text, update arrival stats, build the
context, run the agent under the lock with a deadline, and normalize
success / timeout / error / response-construction failure into a
`(code, response)` pair.  `now` models `time.time()` for this call. -/
def process (s : HandlerStats) (now : Nat) (cb : CallbackMessage)
    (oracle : AgentOutcome) : ProcessResult :=
  match cb.graphRequest with
  | .error e =>
    let r := createErrorResponse ("Parse error: " ++ e)
    { stats := { s with errors := s.errors + 1 }, code := r.1,
      response := r.2, lockAcquired := false, lockReleased := false }
  | .ok body =>
    let parsed := parseMessageContent body
    if parsed.1 = "" then
      { stats := s, code := createEmptyResponse.1,
        response := createEmptyResponse.2,
        lockAcquired := false, lockReleased := false }
    else
      let s1 := { s with messages_received := s.messages_received + 1,
                         last_message_time := now }
      match buildContext parsed.1 parsed.2 now with
      | .error e =>
        let r := createErrorResponse ("Parse error: " ++ e)
        { stats := { s1 with errors := s1.errors + 1 }, code := r.1,
          response := r.2, lockAcquired := false, lockReleased := false }
      | .ok _ctx =>
        match processWithAgentManager oracle with
        | .error _ =>
          let r := createErrorResponse "Processing timeout"
          { stats := { s1 with timeouts := s1.timeouts + 1 }, code := r.1,
            response := r.2, lockAcquired := true, lockReleased := true }
        | .ok result =>
          let s2 := { s1 with messages_processed := s1.messages_processed + 1 }
          match createResponse result with
          | .ok cr =>
            { stats := s2, code := cr.1, response := cr.2,
              lockAcquired := true, lockReleased := true }
          | .error e =>
            let r := createErrorResponse e
            { stats := { s2 with errors := s2.errors + 1 }, code := r.1,
              response := r.2, lockAcquired := true, lockReleased := true }

/-- The `AckMessage` assembled by `raw_process`. -/
structure AckMsg where
  code : Nat
  message_id : String
  content_type : String
  data : List (String × GraphResponseData)

/-- `MessageCallbackHandler.raw_process` (lines 294-305): run `process`
and wrap its `(code, response_dict)` into an acknowledgement echoing the
inbound message id with a JSON content type. -/
def raw_process (s : HandlerStats) (now : Nat) (cb : CallbackMessage)
    (oracle : AgentOutcome) : AckMsg × HandlerStats :=
  let r := process s now cb oracle
  ({ code := r.code, message_id := cb.headers.message_id,
     content_type := CONTENT_TYPE_APPLICATION_JSON,
     data := [("response", r.response)] }, r.stats)

/-- `get_stats`: a copy of the stats dict. -/
def get_stats (s : HandlerStats) : HandlerStats := s

/-- `reset_stats` (lines 312-319): zero the four counters, keep
`last_message_time`. -/
def reset_stats (s : HandlerStats) : HandlerStats :=
  { s with messages_received := 0, messages_processed := 0, errors := 0,
           timeouts := 0 }

/-- The `ConnectionStats` dataclass of `stream_client.py` (lines
24-33). -/
structure ConnectionStats where
  connection_attempts : Nat := 0
  successful_connections : Nat := 0
  reconnections : Nat := 0
  last_connection_time : Nat := 0
  uptime : Nat := 0
  last_message_time : Nat := 0
  messages_processed : Nat := 0
  deriving DecidableEq

/-- What `self.stream_client.start_forever()` did on one attempt:
returned cleanly (unexpected exit) or raised. -/
inductive RunOutcome where
  | cleanExit
  | raised (msg : String)

/-- The externally-determined events of one iteration of
`_start_client_with_reconnection`: how `start_forever` ended, whether
the stop signal was observed set at the checks that follow it, and
whether `stop_event.wait(interval)` reported the stop signal during the
backoff wait. -/
structure IterEnv where
  outcome : RunOutcome
  stopAfterRun : Bool
  stopDuringWait : Bool

/-- The supervisor state touched by the reconnection loop: the local
`reconnect_interval` variable, the cap, the two counters and the health
flag. -/
structure SupState where
  reconnect_interval : Nat
  max_reconnect_interval : Nat
  connection_attempts : Nat
  reconnections : Nat
  is_healthy : Bool
  deriving DecidableEq

/-- Supervisor state at loop entry: the local backoff variable starts at
`self.reconnect_interval = 5`, the cap is
`self.max_reconnect_interval = 60` (from `__init__`). -/
def initialSupState : SupState :=
  { reconnect_interval := 5, max_reconnect_interval := 60,
    connection_attempts := 0, reconnections := 0, is_healthy := false }

/-- Result of running the reconnection loop over a finite trace of
iteration events: final state, the waits passed to `stop_event.wait` in
order, and whether the loop exited via a stop-signal break (`false`
means the trace ran out with the loop still live). -/
structure LoopResult where
  state : SupState
  waits : List Nat
  stopped : Bool
  deriving DecidableEq

/-- `_start_client_with_reconnection` (`stream_client.py` lines
119-153) over a finite event trace.  Each iteration increments
`connection_attempts`, runs `start_forever`; if the stop signal is set
it breaks, otherwise it marks unhealthy, increments `reconnections`,
waits the current interval (breaking early when the stop signal arrives
during the wait) and doubles the interval capped at
`max_reconnect_interval`. -/
def reconnectLoop : SupState → List IterEnv → LoopResult
  | st, [] => ⟨st, [], false⟩
  | st, env :: rest =>
    let st1 := { st with connection_attempts := st.connection_attempts + 1 }
    if env.stopAfterRun then ⟨st1, [], true⟩
    else
      let st2 := { st1 with is_healthy := false,
                            reconnections := st1.reconnections + 1 }
      let w := st2.reconnect_interval
      if env.stopDuringWait then ⟨st2, [w], true⟩
      else
        let st3 := { st2 with
          reconnect_interval :=
            min (st2.reconnect_interval * 2) st2.max_reconnect_interval }
        let r := reconnectLoop st3 rest
        ⟨r.state, w :: r.waits, r.stopped⟩

/-- An iteration on which `start_forever` fails and the stop signal
stays clear. -/
def failEnv : IterEnv := ⟨.raised "connection error", false, false⟩

/-- An iteration on which `start_forever` fails and the stop signal
arrives during the backoff wait. -/
def stopDuringWaitEnv : IterEnv := ⟨.raised "connection error", false, true⟩

/-- The health-monitor state touched by one tick of
`_monitor_connection_health`. -/
structure MonitorState where
  is_healthy : Bool
  uptime : Nat
  last_connection_time : Nat
  connection_timeout : Nat
  deriving DecidableEq

/-- The environment of one monitor tick: whether `self.handler` exists,
the handler's `stats.get("last_message_time", 0)`, the current time,
whether `self.stream_client` exists and whether the stop signal is
set (both read by `_force_reconnect`). -/
structure MonitorEnv where
  handlerPresent : Bool
  last_message_time : Nat
  now : Nat
  streamClientPresent : Bool
  stopSet : Bool

/-- Result of one monitor tick: the new state and whether
`stream_client.stop()` was requested (a forced reconnect). -/
structure TickResult where
  state : MonitorState
  closeRequested : Bool
  deriving DecidableEq

/-- `_force_reconnect` (lines 182-189): requests `stream_client.stop()`
only when a client exists and the stop signal is clear. -/
def forceReconnect (streamClientPresent stopSet : Bool) : Bool :=
  streamClientPresent && !stopSet

/-- One tick of `_monitor_connection_health` (lines 155-180): with a
handler present, a nonzero `last_message_time` older than
`connection_timeout` marks unhealthy and forces a reconnect; a fresh one
marks healthy; a zero one changes nothing.  Whenever the flag ends up
true the tick accumulates `uptime = now - last_connection_time`. -/
def monitorTick (st : MonitorState) (env : MonitorEnv) : TickResult :=
  if env.handlerPresent then
    if env.last_message_time > 0 then
      if env.now - env.last_message_time > st.connection_timeout then
        ⟨{ st with is_healthy := false },
         forceReconnect env.streamClientPresent env.stopSet⟩
      else
        ⟨{ st with is_healthy := true,
                   uptime := env.now - st.last_connection_time }, false⟩
    else
      if st.is_healthy then
        ⟨{ st with uptime := env.now - st.last_connection_time }, false⟩
      else ⟨st, false⟩
  else ⟨st, false⟩

/-- The manager state read by `get_status`. -/
structure ManagerState where
  is_healthy : Bool
  stats : ConnectionStats

/-- `DingTalkStreamManager.get_status` (lines 222-231). -/
def get_status (m : ManagerState) : List (String × PyVal) :=
  [("is_healthy", .bool m.is_healthy),
   ("uptime", .int m.stats.uptime),
   ("connection_attempts", .int m.stats.connection_attempts),
   ("reconnections", .int m.stats.reconnections),
   ("messages_processed", .int m.stats.messages_processed),
   ("last_message_time", .int m.stats.last_message_time)]

/-- An envelope whose `msgType` field is absent, or present but not a
string holding decodable JSON — the shapes on which
`json.loads(body.get("msgType"))` raises. -/
def badMsgType (fs : List (String × PyVal)) : Bool :=
  match assocLookup fs "msgType" with
  | Option.none => true
  | some (.str s) => (loads s).isNone
  | some _ => true

/-- The string content of the round-trip example's `msgType` field. -/
def roundTripMsgType : String := "\x7b\"msgType\":\"text\"\x7d"

/-- The fields of the literal round-trip envelope from the spec's
testable property. -/
def roundTripFields : List (String × PyVal) :=
  [("input", .str "hello"),
   ("sender_id", .str "024362"),
   ("sender_nick", .str "zhangdaping"),
   ("conversation_type", .str "copilot"),
   ("conversation_id", .str "cideIOj2BDeZj3zsswPCZWIuA=="),
   ("conversationToken", .str "ct_01jvpxh0d1fp2946b1q43w003d"),
   ("sender_union_id", .str "URvHTFqSf6IiE"),
   ("msgType", .str roundTripMsgType)]

/-- The literal round-trip envelope. -/
def roundTripEnvelope : PyVal := .dict roundTripFields

/-- An envelope with non-empty `input` but no `msgType` field. -/
def noMsgTypeFields : List (String × PyVal) := [("input", .str "hi")]

/-- The round-trip envelope as wire-format JSON text, the string form in
which `_parse_message_content` normally receives it; decoding it yields
exactly `roundTripFields`. -/
def roundTripJson : String :=
  "\x7b\"input\":\"hello\",\"sender_id\":\"024362\",\"sender_nick\":\"zhangdaping\",\"conversation_type\":\"copilot\",\"conversation_id\":\"cideIOj2BDeZj3zsswPCZWIuA==\",\"conversationToken\":\"ct_01jvpxh0d1fp2946b1q43w003d\",\"sender_union_id\":\"URvHTFqSf6IiE\",\"msgType\":\"\x7b\\\"msgType\\\":\\\"text\\\"\x7d\"\x7d"

/-!  Helper lemmas about the parsing pipeline, shared by the claim
theorems below. -/

theorem pyGet_ok {v : PyVal} {k : String} {d x : PyVal}
    (h : pyGet v k d = .ok x) :
    ∃ fs, v = PyVal.dict fs ∧ x = (assocLookup fs k).getD d := by
  cases v <;> simp [pyGet, pure, Except.pure] at h
  case dict fs => exact ⟨fs, rfl, h.symm⟩

/-- The metadata dict produced for a decoded dict body: the defaulting
rules of `_parse_message_content` made explicit. -/
def mdOf (fs : List (String × PyVal)) (mt rid : PyVal) :
    List (String × PyVal) :=
  [("msg_type", mt),
   ("sender_id", (assocLookup fs "sender_id").getD (.str "")),
   ("sender_nick", (assocLookup fs "sender_nick").getD (.str "Unknown User")),
   ("conversation_id", (assocLookup fs "conversation_id").getD (.str "")),
   ("conversation_type", (assocLookup fs "conversation_type").getD (.str "1")),
   ("group_name", (assocLookup fs "conversation_title").getD (.str "")),
   ("conversation_token", (assocLookup fs "conversationToken").getD (.str "")),
   ("sender_union_id", (assocLookup fs "sender_union_id").getD (.str "")),
   ("request_id", rid)]

theorem buildMetadata_dict (fs : List (String × PyVal)) (mt rid : PyVal) :
    buildMetadata (.dict fs) mt rid = .ok (mdOf fs mt rid) := by
  simp [buildMetadata, pyGet, bind, Except.bind, pure, Except.pure, mdOf]

/-- The `request_id` recovered for a decoded dict body. -/
def requestIdOf (fs : List (String × PyVal)) : PyVal :=
  let orgA := (assocLookup fs "orgId").getD .none
  let orgB := (assocLookup fs "org_id").getD .none
  let org_id := if orgA.truthy then orgA else orgB
  if org_id.truthy then .none
  else
    let sc := (assocLookup fs "scenarioContext").getD .none
    if sc.truthy then scenarioRequestId sc else .none

theorem computeRequestId_dict (fs : List (String × PyVal)) :
    computeRequestId (PyVal.dict fs) = .ok (requestIdOf fs) := by
  simp only [computeRequestId, requestIdOf, pyGet, bind, Except.bind, pure,
             Except.pure]
  repeat' split
  all_goals simp_all

theorem parseBodyExc_ok_shape {body0 : PyVal} {text : String}
    {md : List (String × PyVal)}
    (h : parseBodyExc body0 = .ok (text, md)) :
    ∃ fs mt istr,
      decodeBody body0 = .ok (.dict fs) ∧
      (assocLookup fs "input").getD (.str "") = .str istr ∧
      text = pyStripStr istr ∧
      md = mdOf fs mt (requestIdOf fs) := by
  unfold parseBodyExc at h
  simp only [bind, Except.bind] at h
  cases hb : decodeBody body0 <;> simp only [hb] at h
  case error e => exact Except.noConfusion h
  case ok b =>
  cases hg : pyGet b "msgType" PyVal.none <;> simp only [hg] at h
  case error e => exact Except.noConfusion h
  case ok mtv =>
  obtain ⟨fs, rfl, -⟩ := pyGet_ok hg
  cases hl : pyLoads mtv <;> simp only [hl] at h
  case error e => exact Except.noConfusion h
  case ok mobj =>
  cases hg2 : pyGet mobj "msgType" PyVal.none <;> simp only [hg2] at h
  case error e => exact Except.noConfusion h
  case ok mt =>
  simp only [pyGet, pure, Except.pure] at h
  cases hi : (assocLookup fs "input").getD (PyVal.str "") <;>
    simp only [hi, pyStrip, pure, Except.pure] at h <;>
    try exact Except.noConfusion h
  case str istr =>
  simp only [computeRequestId_dict, buildMetadata_dict, pure, Except.pure] at h
  simp only [Except.ok.injEq, Prod.mk.injEq] at h
  exact ⟨fs, mt, istr, rfl, hi, h.1.symm, h.2.symm⟩

theorem buildContext_mdOf (text : String) (fs : List (String × PyVal))
    (mt rid : PyVal) (now : Nat) :
    buildContext text (mdOf fs mt rid) now = .ok
      { content := text,
        user_name := (assocLookup fs "sender_nick").getD (.str "Unknown User"),
        user_id := (assocLookup fs "sender_id").getD (.str ""),
        sender_union_id := (assocLookup fs "sender_union_id").getD (.str ""),
        is_group_chat :=
          !(isStrEq ((assocLookup fs "conversation_type").getD (.str "1")) "1"),
        group_name := (assocLookup fs "conversation_title").getD (.str ""),
        conversation_id := (assocLookup fs "conversation_id").getD (.str ""),
        timestamp := now,
        conversation_token :=
          (assocLookup fs "conversationToken").getD (.str "") } := rfl

theorem buildContext_ok_of_nonempty (body : PyVal) (now : Nat)
    (h : (parseMessageContent body).1 ≠ "") :
    ∃ ctx, buildContext (parseMessageContent body).1
      (parseMessageContent body).2 now = .ok ctx := by
  unfold parseMessageContent at h ⊢
  cases hp : parseBodyExc body with
  | error e => simp only [hp] at h; simp at h
  | ok r =>
    simp only [hp] at h ⊢
    obtain ⟨text, md⟩ := r
    obtain ⟨fs, mt, istr, -, -, htext, hmd⟩ := parseBodyExc_ok_shape hp
    subst hmd
    exact ⟨_, buildContext_mdOf text fs mt (requestIdOf fs) now⟩

theorem process_empty_path (s : HandlerStats) (now : Nat)
    (hd : CallbackHeaders) (body : PyVal) (oracle : AgentOutcome)
    (he : (parseMessageContent body).1 = "") :
    process s now ⟨hd, .ok body⟩ oracle =
      { stats := s, code := STATUS_OK, response := createEmptyResponse.2,
        lockAcquired := false, lockReleased := false } := by
  simp only [process, he, createEmptyResponse, STATUS_OK, if_pos]

theorem createResponse_ok_code {r : PyVal} {cr : Nat × GraphResponseData}
    (h : createResponse r = .ok cr) : cr.1 = STATUS_OK := by
  unfold createResponse at h
  split at h
  · simp only [pure, Except.pure, Except.ok.injEq] at h
    rw [← h]; rfl
  · simp only [bind, Except.bind] at h
    repeat' split at h
    all_goals
      first
      | exact Except.noConfusion h
      | (simp only [pure, Except.pure, Except.ok.injEq] at h; rw [← h])

/-!  Claim theorems for the processing pipeline. -/

/-- C1: for every non-empty inbound request whose handler invocation
exceeds the deadline (`asyncio.wait_for` raises `TimeoutError`),
`process` increments `timeouts` by exactly 1, returns a System-Exception
acknowledgement (code `STATUS_SYSTEM_EXCEPTION`, status-line 500) whose
body carries the fixed "Processing timeout" message, and releases the
single-flight lock; `messages_processed` and `errors` are unchanged. -/
theorem timeout_path_correct
    (s : HandlerStats) (now : Nat) (hd : CallbackHeaders) (body : PyVal)
    (hne : (parseMessageContent body).1 ≠ "") :
    (process s now ⟨hd, .ok body⟩ .timeout).stats.timeouts = s.timeouts + 1 ∧
    (process s now ⟨hd, .ok body⟩ .timeout).code = STATUS_SYSTEM_EXCEPTION ∧
    (process s now ⟨hd, .ok body⟩ .timeout).response.code = 500 ∧
    (process s now ⟨hd, .ok body⟩ .timeout).response.body
      = .dict [("error", .str "Processing timeout")] ∧
    (process s now ⟨hd, .ok body⟩ .timeout).stats.messages_processed
      = s.messages_processed ∧
    (process s now ⟨hd, .ok body⟩ .timeout).stats.errors = s.errors ∧
    (process s now ⟨hd, .ok body⟩ .timeout).lockAcquired = true ∧
    (process s now ⟨hd, .ok body⟩ .timeout).lockReleased = true := by
  obtain ⟨ctx, hctx⟩ := buildContext_ok_of_nonempty body now hne
  simp only [process, if_neg hne, hctx, processWithAgentManager,
             createErrorResponse, STATUS_SYSTEM_EXCEPTION, STATUS_OK]
  simp

/-- Witness for C1: the timeout path on the literal round-trip envelope
with fresh stats at time 42. -/
theorem timeout_path_correct_witness :
    (process {} 42 ⟨⟨"mid-1"⟩, .ok roundTripEnvelope⟩ .timeout).stats.timeouts
      = ({} : HandlerStats).timeouts + 1 ∧
    (process {} 42 ⟨⟨"mid-1"⟩, .ok roundTripEnvelope⟩ .timeout).code
      = STATUS_SYSTEM_EXCEPTION ∧
    (process {} 42 ⟨⟨"mid-1"⟩, .ok roundTripEnvelope⟩ .timeout).response.code = 500 ∧
    (process {} 42 ⟨⟨"mid-1"⟩, .ok roundTripEnvelope⟩ .timeout).response.body
      = .dict [("error", .str "Processing timeout")] ∧
    (process {} 42 ⟨⟨"mid-1"⟩, .ok roundTripEnvelope⟩ .timeout).stats.messages_processed
      = ({} : HandlerStats).messages_processed ∧
    (process {} 42 ⟨⟨"mid-1"⟩, .ok roundTripEnvelope⟩ .timeout).stats.errors
      = ({} : HandlerStats).errors ∧
    (process {} 42 ⟨⟨"mid-1"⟩, .ok roundTripEnvelope⟩ .timeout).lockAcquired = true ∧
    (process {} 42 ⟨⟨"mid-1"⟩, .ok roundTripEnvelope⟩ .timeout).lockReleased = true :=
  timeout_path_correct {} 42 ⟨"mid-1"⟩ roundTripEnvelope (by decide)

/-- C5 counterexample: on the round-trip envelope with the external
handler raising `ValueError("boom")`, the pipeline returns an OK (not
System-Exception) acknowledgement, leaves `errors` at 0, and increments
`messages_processed` to 1 — the raised error is caught inside
`_process_with_agent_manager` and converted into a normal result. -/
theorem handler_error_counterexample :
    (process {} 42 ⟨⟨"mid-3"⟩, .ok roundTripEnvelope⟩
        (.raises "boom" "ValueError")).code = STATUS_OK ∧
    (process {} 42 ⟨⟨"mid-3"⟩, .ok roundTripEnvelope⟩
        (.raises "boom" "ValueError")).stats.errors = 0 ∧
    (process {} 42 ⟨⟨"mid-3"⟩, .ok roundTripEnvelope⟩
        (.raises "boom" "ValueError")).stats.messages_processed = 1 ∧
    (process {} 42 ⟨⟨"mid-3"⟩, .ok roundTripEnvelope⟩
        (.raises "boom" "ValueError")).response.body
      = .dict [("content",
          .dict [("status", .str "error"), ("message", .str "boom"),
                 ("error_type", .str "ValueError")])] :=
  ⟨rfl, rfl, rfl, rfl⟩

/-- C5 as amended: for every non-empty inbound request whose external
message handler raises a non-timeout error, the error is caught inside
`_process_with_agent_manager` and returned as a normal error dict, so
the pipeline increments `messages_processed` (not `errors`), returns an
OK acknowledgement whose `content` carries the error description and
type, and releases the lock. -/
theorem handler_error_path
    (s : HandlerStats) (now : Nat) (hd : CallbackHeaders) (body : PyVal)
    (desc ty : String)
    (hne : (parseMessageContent body).1 ≠ "") :
    (process s now ⟨hd, .ok body⟩ (.raises desc ty)).code = STATUS_OK ∧
    (process s now ⟨hd, .ok body⟩ (.raises desc ty)).response.body
      = .dict [("content",
          .dict [("status", .str "error"), ("message", .str desc),
                 ("error_type", .str ty)])] ∧
    (process s now ⟨hd, .ok body⟩ (.raises desc ty)).stats.messages_processed
      = s.messages_processed + 1 ∧
    (process s now ⟨hd, .ok body⟩ (.raises desc ty)).stats.errors = s.errors ∧
    (process s now ⟨hd, .ok body⟩ (.raises desc ty)).stats.timeouts = s.timeouts ∧
    (process s now ⟨hd, .ok body⟩ (.raises desc ty)).lockAcquired = true ∧
    (process s now ⟨hd, .ok body⟩ (.raises desc ty)).lockReleased = true := by
  obtain ⟨ctx, hctx⟩ := buildContext_ok_of_nonempty body now hne
  simp only [process, if_neg hne, hctx, processWithAgentManager, createResponse,
             PyVal.truthy, createTextResponse, makeJsonSerializable,
             serializeFields, serializeList, createBaseResponse, STATUS_OK,
             bind, Except.bind, pure, Except.pure, List.any, List.isEmpty,
             Bool.not_false, Bool.not_true]
  simp

/-- Witness for the amended C5 at the round-trip envelope and a concrete
`TypeError`. -/
theorem handler_error_path_witness :
    (process {} 7 ⟨⟨"mid-4"⟩, .ok roundTripEnvelope⟩
        (.raises "oops" "TypeError")).code = STATUS_OK ∧
    (process {} 7 ⟨⟨"mid-4"⟩, .ok roundTripEnvelope⟩
        (.raises "oops" "TypeError")).response.body
      = .dict [("content",
          .dict [("status", .str "error"), ("message", .str "oops"),
                 ("error_type", .str "TypeError")])] ∧
    (process {} 7 ⟨⟨"mid-4"⟩, .ok roundTripEnvelope⟩
        (.raises "oops" "TypeError")).stats.messages_processed
      = ({} : HandlerStats).messages_processed + 1 ∧
    (process {} 7 ⟨⟨"mid-4"⟩, .ok roundTripEnvelope⟩
        (.raises "oops" "TypeError")).stats.errors = ({} : HandlerStats).errors ∧
    (process {} 7 ⟨⟨"mid-4"⟩, .ok roundTripEnvelope⟩
        (.raises "oops" "TypeError")).stats.timeouts = ({} : HandlerStats).timeouts ∧
    (process {} 7 ⟨⟨"mid-4"⟩, .ok roundTripEnvelope⟩
        (.raises "oops" "TypeError")).lockAcquired = true ∧
    (process {} 7 ⟨⟨"mid-4"⟩, .ok roundTripEnvelope⟩
        (.raises "oops" "TypeError")).lockReleased = true :=
  handler_error_path {} 7 ⟨"mid-4"⟩ roundTripEnvelope "oops" "TypeError" (by decide)

/-- Every `process` call answers with one of the two acknowledgement
codes. -/
theorem process_code_cases (s : HandlerStats) (now : Nat)
    (cb : CallbackMessage) (oracle : AgentOutcome) :
    (process s now cb oracle).code = STATUS_OK ∨
    (process s now cb oracle).code = STATUS_SYSTEM_EXCEPTION := by
  obtain ⟨hd, gr⟩ := cb
  cases gr with
  | error e => exact Or.inr rfl
  | ok body =>
    simp only [process]
    split
    · exact Or.inl rfl
    · split
      · exact Or.inr rfl
      · split
        · exact Or.inr rfl
        · split
          · next cr heq => exact Or.inl (createResponse_ok_code heq)
          · exact Or.inr rfl

/-- C6: every inbound callback frame gets exactly one acknowledgement
(`raw_process` is a total function of the frame and the handler
outcome), whose code is `STATUS_OK` or `STATUS_SYSTEM_EXCEPTION`, whose
`headers.message_id` echoes the inbound frame, whose
`headers.content_type` is `application/json`, and whose data is the
single-key dict `response` mapped to the response dict. -/
theorem ack_always_wellformed (s : HandlerStats) (now : Nat)
    (cb : CallbackMessage) (oracle : AgentOutcome) :
    ((raw_process s now cb oracle).1.code = STATUS_OK ∨
     (raw_process s now cb oracle).1.code = STATUS_SYSTEM_EXCEPTION) ∧
    (raw_process s now cb oracle).1.message_id = cb.headers.message_id ∧
    (raw_process s now cb oracle).1.content_type = "application/json" ∧
    (raw_process s now cb oracle).1.data
      = [("response", (process s now cb oracle).response)] :=
  ⟨process_code_cases s now cb oracle, rfl, rfl, rfl⟩

/-- On every path `process` either leaves `last_message_time` unchanged
or sets it to the current time. -/
theorem process_lmt_cases (s : HandlerStats) (now : Nat)
    (cb : CallbackMessage) (oracle : AgentOutcome) :
    (process s now cb oracle).stats.last_message_time = s.last_message_time ∨
    (process s now cb oracle).stats.last_message_time = now := by
  obtain ⟨hd, gr⟩ := cb
  cases gr with
  | error e => exact Or.inl rfl
  | ok body =>
    simp only [process]
    split
    · exact Or.inl rfl
    · split
      · exact Or.inr rfl
      · split
        · exact Or.inr rfl
        · split
          · exact Or.inr rfl
          · exact Or.inr rfl

/-- C9: `last_message_time` is monotonically non-decreasing across the
handler's operations — `process` either keeps it or sets it to the
current time (which dominates under a monotone clock), `reset_stats`
zeroes the four counters but never touches it, and `get_stats` is a pure
copy. -/
theorem last_message_time_monotone :
    (∀ (s : HandlerStats) (now : Nat) (cb : CallbackMessage)
       (oracle : AgentOutcome),
       (process s now cb oracle).stats.last_message_time = s.last_message_time ∨
       (process s now cb oracle).stats.last_message_time = now) ∧
    (∀ s : HandlerStats,
       (reset_stats s).last_message_time = s.last_message_time ∧
       (reset_stats s).messages_received = 0 ∧
       (reset_stats s).messages_processed = 0 ∧
       (reset_stats s).errors = 0 ∧
       (reset_stats s).timeouts = 0) ∧
    (∀ s : HandlerStats, get_stats s = s) ∧
    (∀ (s : HandlerStats) (now : Nat) (cb : CallbackMessage)
       (oracle : AgentOutcome),
       s.last_message_time ≤ now →
       s.last_message_time ≤ (process s now cb oracle).stats.last_message_time) := by
  refine ⟨process_lmt_cases, fun s => ⟨rfl, rfl, rfl, rfl, rfl⟩, fun s => rfl,
          fun s now cb oracle hle => ?_⟩
  rcases process_lmt_cases s now cb oracle with h | h <;> rw [h]
  exact hle

/-- Witness for C9: concrete monotone step on the round-trip envelope. -/
theorem last_message_time_monotone_witness :
    ({ last_message_time := 5 } : HandlerStats).last_message_time ≤ 42 ∧
    ({ last_message_time := 5 } : HandlerStats).last_message_time ≤
      (process { last_message_time := 5 } 42 ⟨⟨"mid-5"⟩, .ok roundTripEnvelope⟩
        .timeout).stats.last_message_time :=
  ⟨by decide,
   last_message_time_monotone.2.2.2 { last_message_time := 5 } 42
     ⟨⟨"mid-5"⟩, .ok roundTripEnvelope⟩ .timeout (by decide)⟩

/-- The parse fails (returning empty text and empty metadata) whenever
the `msgType` field is absent or undecodable. -/
theorem parse_fails_on_bad_msgType (fs : List (String × PyVal))
    (hbad : badMsgType fs = true) :
    parseMessageContent (.dict fs) = ("", []) := by
  unfold parseMessageContent parseBodyExc
  simp only [bind, Except.bind, decodeBody, pure, Except.pure, pyGet]
  unfold badMsgType at hbad
  cases hm : assocLookup fs "msgType" with
  | none => simp [hm, pyLoads]
  | some v =>
    rw [hm] at hbad
    cases v <;> simp_all [pyLoads, Option.isNone_iff_eq_none]

/-- C10: the `msgType` envelope field is effectively mandatory — when it
is absent or is not a string containing decodable JSON,
`json.loads(body.get("msgType"))` raises, the parse is caught into empty
text content and empty metadata, and `process` answers with the OK
"No valid text content" acknowledgement, changing no statistics counter,
even when `input` is a non-empty string. -/
theorem msgType_effectively_mandatory (fs : List (String × PyVal))
    (s : HandlerStats) (now : Nat) (hd : CallbackHeaders)
    (oracle : AgentOutcome)
    (hbad : badMsgType fs = true) :
    parseMessageContent (.dict fs) = ("", []) ∧
    (process s now ⟨hd, .ok (.dict fs)⟩ oracle).code = STATUS_OK ∧
    (process s now ⟨hd, .ok (.dict fs)⟩ oracle).response.body
      = .dict [("status", .str "empty_message"),
               ("text", .str "No valid text content")] ∧
    (process s now ⟨hd, .ok (.dict fs)⟩ oracle).stats = s := by
  have hp := parse_fails_on_bad_msgType fs hbad
  have he : (parseMessageContent (.dict fs)).1 = "" := by rw [hp]
  rw [process_empty_path s now hd (.dict fs) oracle he]
  exact ⟨hp, rfl, rfl, rfl⟩

/-- Witness for C10: the envelope `\x7b"input": "hi"\x7d` (no `msgType`)
short-circuits with unchanged stats even though `input` is non-empty. -/
theorem msgType_effectively_mandatory_witness :
    parseMessageContent (.dict noMsgTypeFields) = ("", []) ∧
    (process {} 42 ⟨⟨"mid-6"⟩, .ok (.dict noMsgTypeFields)⟩
        (.success (.str "ok"))).code = STATUS_OK ∧
    (process {} 42 ⟨⟨"mid-6"⟩, .ok (.dict noMsgTypeFields)⟩
        (.success (.str "ok"))).response.body
      = .dict [("status", .str "empty_message"),
               ("text", .str "No valid text content")] ∧
    (process {} 42 ⟨⟨"mid-6"⟩, .ok (.dict noMsgTypeFields)⟩
        (.success (.str "ok"))).stats = {} :=
  msgType_effectively_mandatory noMsgTypeFields {} 42 ⟨"mid-6"⟩
    (.success (.str "ok")) (by decide)

/-- C7: for every well-formed JSON envelope — given as a string or an
already-decoded object, i.e. any body that (after `json.loads` when a
string) is a dict `fs` — whose `msgType` is a string decoding to a JSON
object and whose `input`, defaulted to `""`, is a string, the parse
returns the trimmed `input` as text content and the metadata dict
`mdOf` — in which `conversation_type` defaults to `"1"`, `sender_nick`
to `"Unknown User"`, and the other string fields to `""` — and an
absent or malformed `scenarioContext` is tolerated with `request_id`
staying `None` rather than failing the parse. -/
theorem parse_defaulting_rules (body0 : PyVal) (fs : List (String × PyVal))
    (mts : String) (mfs : List (String × PyVal)) (istr : String)
    (hdec : decodeBody body0 = .ok (.dict fs))
    (hmt : assocLookup fs "msgType" = some (.str mts))
    (hload : loads mts = some (.dict mfs))
    (hinput : (assocLookup fs "input").getD (.str "") = .str istr) :
    parseMessageContent body0 =
      (pyStripStr istr,
       mdOf fs ((assocLookup mfs "msgType").getD .none) (requestIdOf fs)) ∧
    (assocLookup fs "scenarioContext" = Option.none → requestIdOf fs = .none) ∧
    (∀ scs : String, assocLookup fs "scenarioContext" = some (.str scs) →
       loads scs = Option.none → requestIdOf fs = .none) := by
  refine ⟨?_, ?_, ?_⟩
  · unfold parseMessageContent parseBodyExc
    simp only [bind, Except.bind, hdec, pure, Except.pure, pyGet, hmt,
               Option.getD_some, pyLoads, hload, hinput, pyStrip,
               computeRequestId_dict, buildMetadata_dict]
  · intro h0
    simp only [requestIdOf, h0, Option.getD_none]
    split
    · rfl
    · simp [PyVal.truthy]
  · intro scs hsc hl
    simp only [requestIdOf, hsc, Option.getD_some]
    have hrid : scenarioRequestId (PyVal.str scs) = PyVal.none := by
      simp [scenarioRequestId, pyLoads, hl, bind, Except.bind]
    repeat' split
    all_goals simp [hrid]

set_option maxRecDepth 8000 in
/-- Witness for C7: the literal round-trip envelope — both in its
wire-format string form and as the already-decoded object — parses to
text content `hello`, sender nick `zhangdaping`, `conversation_type`
`copilot` (hence a group-chat classification, since it differs from
`"1"`), and `request_id` `None`. -/
theorem parse_defaulting_rules_witness :
    (parseMessageContent (.str roundTripJson)).1 = "hello" ∧
    (parseMessageContent roundTripEnvelope).1 = "hello" ∧
    parseMessageContent (.str roundTripJson)
      = parseMessageContent roundTripEnvelope ∧
    assocLookup (parseMessageContent roundTripEnvelope).2 "sender_nick"
      = some (.str "zhangdaping") ∧
    assocLookup (parseMessageContent roundTripEnvelope).2 "conversation_type"
      = some (.str "copilot") ∧
    (buildContext (parseMessageContent roundTripEnvelope).1
        (parseMessageContent roundTripEnvelope).2 7).map MessageContext.is_group_chat
      = .ok true ∧
    assocLookup (parseMessageContent roundTripEnvelope).2 "request_id"
      = some .none := by
  have hs := parse_defaulting_rules (.str roundTripJson) roundTripFields
    roundTripMsgType [("msgType", PyVal.str "text")] "hello" (by rfl) rfl rfl rfl
  have hd := parse_defaulting_rules roundTripEnvelope roundTripFields
    roundTripMsgType [("msgType", PyVal.str "text")] "hello" rfl rfl rfl rfl
  rw [hs.1, hd.1]
  exact ⟨rfl, rfl, rfl, rfl, rfl, rfl, rfl⟩

/-- One failing iteration of the reconnection loop with the stop signal
clear: log the current interval as a wait, then continue with the
interval doubled and capped. -/
theorem reconnectLoop_failEnv_step (st : SupState) (k : Nat) :
    (reconnectLoop st (List.replicate (k + 1) failEnv)).waits
      = st.reconnect_interval ::
        (reconnectLoop
          ⟨min (st.reconnect_interval * 2) st.max_reconnect_interval,
           st.max_reconnect_interval, st.connection_attempts + 1,
           st.reconnections + 1, false⟩
          (List.replicate k failEnv)).waits := rfl

/-- The wait sequence emitted by the reconnection loop when every
attempt fails and the stop signal stays clear, from an interval already
at the `min (5 * 2 ^ n) 60` stage. -/
theorem reconnectLoop_waits_general (k : Nat) :
    ∀ (ri ca rc : Nat) (hl : Bool) (n : Nat),
      ri = min (5 * 2 ^ n) 60 →
      (reconnectLoop ⟨ri, 60, ca, rc, hl⟩ (List.replicate k failEnv)).waits
        = (List.range k).map (fun j => min (5 * 2 ^ (n + j)) 60) := by
  induction k with
  | zero => intro ri ca rc hl n hri; simp [reconnectLoop]
  | succ k ih =>
    intro ri ca rc hl n hri
    rw [reconnectLoop_failEnv_step]
    dsimp only
    rw [ih (min (ri * 2) 60) (ca + 1) (rc + 1) false (n + 1)
          (by rw [hri, pow_succ]; omega)]
    rw [List.range_succ_eq_map, List.map_cons, List.map_map]
    refine List.cons_eq_cons.mpr ⟨by simpa using hri, ?_⟩
    apply List.map_congr_left
    intro j hj
    have he : n + 1 + j = n + (j + 1) := by omega
    simp [Function.comp_apply, he, Nat.succ_eq_add_one]

/-- The reconnection loop breaks out during the backoff wait as soon as
the stop signal arrives, regardless of the preceding failures. -/
theorem reconnectLoop_stop_during_wait (i : Nat) :
    ∀ (st : SupState) (rest : List IterEnv),
      (reconnectLoop st
        (List.replicate i failEnv ++ stopDuringWaitEnv :: rest)).stopped = true ∧
      (reconnectLoop st
        (List.replicate i failEnv ++ stopDuringWaitEnv :: rest)).waits.length
        = i + 1 := by
  induction i with
  | zero => intro st rest; simp [reconnectLoop, stopDuringWaitEnv]
  | succ i ih =>
    intro st rest
    simp only [List.replicate_succ, List.cons_append, reconnectLoop, failEnv]
    refine ⟨(ih _ rest).1, ?_⟩
    simpa using (ih _ rest).2

/-- C3: when `start_forever` fails on every attempt and the stop signal
is never set, the waits passed to `stop_event.wait` are exactly
`min (5 * 2 ^ n) 60` for the n-th wait — the sequence
`5, 10, 20, 40, 60, 60, 60, ...` (each wait doubling the previous,
capped at `max_reconnect_interval = 60`); and whenever the stop signal
arrives during a backoff wait, the loop stops right there. -/
theorem backoff_doubling_capped :
    (∀ k : Nat,
       (reconnectLoop initialSupState (List.replicate k failEnv)).waits
         = (List.range k).map (fun n => min (5 * 2 ^ n) 60)) ∧
    (reconnectLoop initialSupState (List.replicate 7 failEnv)).waits
      = [5, 10, 20, 40, 60, 60, 60] ∧
    (∀ (i : Nat) (rest : List IterEnv),
       (reconnectLoop initialSupState
         (List.replicate i failEnv ++ stopDuringWaitEnv :: rest)).stopped = true ∧
       (reconnectLoop initialSupState
         (List.replicate i failEnv ++ stopDuringWaitEnv :: rest)).waits.length
         = i + 1) := by
  refine ⟨fun k => ?_, by decide,
          fun i rest => reconnectLoop_stop_during_wait i _ rest⟩
  have h := reconnectLoop_waits_general k 5 0 0 false 0 (by norm_num)
  simpa [initialSupState] using h

/-- C4: a health-monitor tick (handler and stream client present, stop
signal clear) never marks the connection unhealthy nor requests a close
before any message has arrived (`last_message_time = 0`); with
`last_message_time > 0` it marks unhealthy and requests the stream
client to stop exactly when `now - last_message_time` exceeds
`connection_timeout`, and marks healthy when within the threshold. -/
theorem health_monitor_tick_cases (st : MonitorState) (env : MonitorEnv)
    (hh : env.handlerPresent = true)
    (hsc : env.streamClientPresent = true)
    (hstop : env.stopSet = false) :
    (env.last_message_time = 0 →
       (monitorTick st env).state.is_healthy = st.is_healthy ∧
       (monitorTick st env).closeRequested = false) ∧
    (env.last_message_time > 0 →
     env.now - env.last_message_time > st.connection_timeout →
       (monitorTick st env).state.is_healthy = false ∧
       (monitorTick st env).closeRequested = true) ∧
    (env.last_message_time > 0 →
     env.now - env.last_message_time ≤ st.connection_timeout →
       (monitorTick st env).state.is_healthy = true ∧
       (monitorTick st env).closeRequested = false) := by
  refine ⟨fun h0 => ?_, fun hpos hstale => ?_, fun hpos hfresh => ?_⟩
  · rw [monitorTick, if_pos hh, h0]
    simp only [gt_iff_lt, lt_self_iff_false, if_false]
    split <;> simp
  · rw [monitorTick, if_pos hh, if_pos hpos, if_pos hstale]
    simp [forceReconnect, hsc, hstop]
  · rw [monitorTick, if_pos hh, if_pos hpos, if_neg (not_lt.mpr hfresh)]
    simp

/-- Witness for C4: with `connection_timeout = 300`, a tick at
`now = 400` and `last_message_time = 50` (staleness 350) marks
unhealthy and requests the close. -/
theorem health_monitor_tick_cases_witness :
    (monitorTick ⟨true, 0, 100, 300⟩ ⟨true, 50, 400, true, false⟩).state.is_healthy
      = false ∧
    (monitorTick ⟨true, 0, 100, 300⟩ ⟨true, 50, 400, true, false⟩).closeRequested
      = true :=
  (health_monitor_tick_cases ⟨true, 0, 100, 300⟩ ⟨true, 50, 400, true, false⟩
    rfl rfl rfl).2.1 (by decide) (by decide)

/-- C8 counterexample: at a concrete manager state the status map's
keys are exactly `is_healthy, uptime, connection_attempts,
reconnections, messages_processed, last_message_time` — there is no
`uptime_seconds` field, refuting the claimed field set. -/
theorem status_keys_counterexample :
    (get_status ⟨true, ⟨3, 2, 1, 9, 17, 99, 4⟩⟩).map Prod.fst
      = ["is_healthy", "uptime", "connection_attempts", "reconnections",
         "messages_processed", "last_message_time"] ∧
    ¬ ("uptime_seconds" ∈ (get_status ⟨true, ⟨3, 2, 1, 9, 17, 99, 4⟩⟩).map Prod.fst) :=
  ⟨rfl, by decide⟩

/-- C8 as amended: the status query returns a map with exactly the six
fields `is_healthy` (the current health flag), `uptime` (the uptime
accumulated by the health monitor; keyed `uptime`, not
`uptime_seconds`), `connection_attempts` and `reconnections` (the
supervisor's counters), `messages_processed` and `last_message_time`
(read from `ConnectionStats`). -/
theorem status_query_surface (m : ManagerState) :
    get_status m =
      [("is_healthy", .bool m.is_healthy),
       ("uptime", .int m.stats.uptime),
       ("connection_attempts", .int m.stats.connection_attempts),
       ("reconnections", .int m.stats.reconnections),
       ("messages_processed", .int m.stats.messages_processed),
       ("last_message_time", .int m.stats.last_message_time)] ∧
    ¬ ("uptime_seconds" ∈ (get_status m).map Prod.fst) := by
  refine ⟨rfl, ?_⟩
  simp [get_status]

end DingTalk
